import Mathlib

/-!
Shallow embedding of the federated query/aggregation layer of the
multi-database dashboard (app.py, mysql_utils.py, mongodb_utils.py,
neo4j_utils.py), together with proofs settling the specification claims
about it.  Backend I/O (SQL, MongoDB, Cypher network calls) is abstracted
by passing each adapter's outcome as an explicit input; a value of
Option (List _) mirrors the Python adapters, whose execute_query returns
None on a caught error and a (possibly empty) result list otherwise.
-/

namespace DataDashboard

/-! ### Aggregation/statistics engine (app.py widget data functions) -/

/-- Shallow embedding of the pandas pipeline
df.groupby(field).size().reset_index(name='count') followed by
sort_values(field) (app.py, get_publications_by_keyword lines 547-549 and
get_faculty_publications lines 1376-1378): the distinct key values sorted
ascending, each paired with the number of records carrying that key. -/
def groupCount {K : Type} [LinearOrder K] [DecidableEq K] (keys : List K) :
    List (K × Nat) :=
  (List.insertionSort (· ≤ ·) keys.dedup).map (fun k => (k, keys.count k))

/-- Group-count aggregation over a record set by a field projection. -/
def groupCountBy {ρ K : Type} [LinearOrder K] (R : List ρ) (f : ρ → K) : List (K × Nat) :=
  groupCount (R.map f)

/-- Distinct values in first-encountered order, as a Python dict built by
insertion preserves it (app.py, keyword_counts in get_university_keywords). -/
def distinctFirst {K : Type} [DecidableEq K] (l : List K) : List K :=
  l.foldl (fun acc x => if x ∈ acc then acc else acc ++ [x]) []

/-- Per-key counts in first-encountered order: the contents of the Python
dict accumulated before ranking (app.py lines 850-862). -/
def countsFirst {K : Type} [DecidableEq K] (keys : List K) : List (K × Nat) :=
  (distinctFirst keys).map (fun k => (k, keys.count k))

/-- Count-descending comparison used by
sorted(keyword_counts.items(), key=lambda x: x[1], reverse=True). -/
abbrev countGE {K : Type} (a b : K × Nat) : Prop := b.2 ≤ a.2

instance {K : Type} : IsTotal (K × Nat) countGE :=
  ⟨fun a b => le_total b.2 a.2⟩

instance {K : Type} : IsTrans (K × Nat) countGE :=
  ⟨fun _ _ _ hab hbc => le_trans hbc hab⟩

/-- Full ranking of the partitions by count descending.  Python's sorted is
a stable sort, so partitions with equal counts keep their first-encountered
(dict insertion) order; insertion sort is likewise stable. -/
def rankedCounts {K : Type} [DecidableEq K] (keys : List K) : List (K × Nat) :=
  List.insertionSort countGE (countsFirst keys)

/-- Top-N aggregation of the dict-based site (app.py line 865:
sorted(keyword_counts.items(), key=lambda x: x[1], reverse=True)[:10], a
stable sort over the insertion-ordered dict). -/
def topN {K : Type} [DecidableEq K] (keys : List K) (n : Nat) : List (K × Nat) :=
  (rankedCounts keys).take n

/-- Top-N aggregation over a record set by a field projection (dict-based
site). -/
def topNBy {ρ K : Type} [LinearOrder K] (R : List ρ) (f : ρ → K) (n : Nat) : List (K × Nat) :=
  topN (R.map f) n

/-- Venue ranking of get_faculty_publications (app.py lines 1391-1393):
df.groupby('venue').size().reset_index(name='count') emits the partitions in
sorted (alphabetical) key order -- first-encountered order is already lost
there -- and sort_values('count', ascending=False).head(10) then ranks them
by count descending.  pandas' default quicksort carries no stability
guarantee, so within a tie class the order is at best the alphabetical
partition order, never the first-encountered one; the sort is modelled here
by a deterministic stable sort of those alphabetically ordered partitions,
which agrees with the observed pandas behaviour on small inputs. -/
def venueTopN {K : Type} [LinearOrder K] [DecidableEq K] (keys : List K)
    (n : Nat) : List (K × Nat) :=
  (List.insertionSort countGE (groupCount keys)).take n

/-! ### Keyword explosion (app.py, get_university_keywords lines 849-865) -/

/-- Accumulator for Python str.split(','): cur holds the current chunk
reversed. -/
def splitCommaAux : List Char → List Char → List (List Char)
  | [], cur => [cur.reverse]
  | c :: rest, cur =>
      if c = ',' then cur.reverse :: splitCommaAux rest []
      else splitCommaAux rest (c :: cur)

/-- Python str.split(','). -/
def pySplitComma (s : String) : List String :=
  (splitCommaAux s.data []).map List.asString

/-- Python str.strip(): drop whitespace from both ends. -/
def pyStrip (s : String) : String :=
  (((s.data.dropWhile Char.isWhitespace).reverse.dropWhile Char.isWhitespace).reverse).asString

/-- Python str.lower() on ASCII data. -/
def pyLower (s : String) : String :=
  (s.data.map Char.toLower).asString

/-- Python dict accumulation keyword_counts[keyword] += count (insertion
order preserved, new keys appended). -/
def bumpCount (m : List (String × Nat)) (k : String) (c : Nat) : List (String × Nat) :=
  if m.any (fun p => p.1 = k) then
    m.map (fun p => if p.1 = k then (p.1, p.2 + c) else p)
  else m ++ [(k, c)]

/-- Keyword-explosion loop body for one result row (app.py lines 852-862):
split the row's keyword string on ',', strip and lowercase each token, keep
tokens that are non-empty and longer than 2 characters, and add the row's
SQL count to each kept token's tally. -/
def explodeRow (m : List (String × Nat)) (row : String × Nat) : List (String × Nat) :=
  let toks := if row.1 = "" then [] else pySplitComma row.1
  toks.foldl (fun acc t =>
    let k := pyLower (pyStrip t)
    if k ≠ "" ∧ k.length > 2 then bumpCount acc k row.2 else acc) m

/-- Keyword explosion over all rows: the frequency mapping fed into top-N
(app.py lines 850-862). -/
def keywordCounts (rows : List (String × Nat)) : List (String × Nat) :=
  rows.foldl explodeRow []

/-! ### Scalar statistics (app.py lines 575-580 and 648-653) -/

/-- Columns of the DataFrame built from the MySQL rows in
get_all_publications (app.py line 626); the frame is constructed with this
explicit column list, so the columns are present even when the row list is
empty. -/
def allPublicationsColumns : List String :=
  ["title", "year", "venue", "citations", "authors"]

/-- pandas Series.mean(): NaN on an empty series (modelled as none),
otherwise the rational mean of the values. -/
def seriesMean (l : List Int) : Option Rat :=
  if l = [] then none else some ((l.map (fun z => (z : Rat))).sum / l.length)

/-- pandas Series.max(): NaN on an empty series (modelled as none). -/
def seriesMax (l : List Int) : Option Int :=
  l.max?

/-- pandas Series.mode().iloc[0] on a nonempty series: the smallest value
attaining the maximal frequency (pandas mode returns the modes sorted
ascending). -/
def seriesModeFirst (l : List String) : Option String :=
  let gc := groupCount l
  let m := (gc.map Prod.snd).foldr max 0
  ((gc.filter (fun p => p.2 = m)).head?).map Prod.fst

/-- Scalar statistics block of get_all_publications (app.py lines 648-653),
applied to the citations column. -/
structure AllPubsStats where
  totalPubs : Nat
  avgCitations : Option Rat
  maxCitations : Option Int
deriving DecidableEq

/-- total_pubs, avg_citations and max_citations of get_all_publications
(lines 648-653): the averages fall back to 0 only when the citations column
is absent, which never happens because the frame is built with an explicit
column list. -/
def allPubsStats (citations : List Int) : AllPubsStats :=
  { totalPubs := citations.length
    avgCitations :=
      if "citations" ∈ allPublicationsColumns then seriesMean citations else some 0
    maxCitations :=
      if "citations" ∈ allPublicationsColumns then seriesMax citations else some 0 }

/-- top_venue of get_publications_by_keyword (app.py line 578):
df['venue'].mode().iloc[0] when the frame is nonempty, otherwise 'N/A'. -/
def keywordStatsTopVenue (venues : List String) : String :=
  if venues.length > 0 then (seriesModeFirst venues).getD "N/A" else "N/A"

/-! ### Keyword comparison validation (app.py, compare_keywords lines 421-447) -/

/-- Keywords collected by compare_keywords (app.py line 433): the stripped
value of every input that is present and non-blank. -/
def collectKeywords (kws : List (Option String)) : List String :=
  kws.filterMap (fun o => o.bind (fun s =>
    if pyStrip s = "" then none else some (pyStrip s)))

/-- Outcome of the comparison widget: the user-facing info string together
with the number of backend queries issued while producing it. -/
structure CompareOutcome where
  info : String
  backendQueries : Nat
deriving DecidableEq

/-- get_keyword_comparison (app.py lines 676-792), abstracted to its query
behaviour: it first checks the MySQL handle and, when available, runs
exactly one aggregate SQL query per keyword. -/
def getKeywordComparison (mysqlConnected : Bool) (keywords : List String) :
    CompareOutcome :=
  if mysqlConnected then
    { info := "keyword comparison statistics", backendQueries := keywords.length }
  else
    { info := "MySQL connection not available", backendQueries := 0 }

/-- compare_keywords callback (app.py lines 421-447): placeholder on the
initial load, a validation message when fewer than 2 non-blank keywords
were supplied, a comparison otherwise. -/
def compareKeywords (mysqlConnected : Bool) (nClicks : Nat)
    (k1 k2 k3 k4 k5 : Option String) : CompareOutcome :=
  if nClicks = 0 then
    { info := "Enter 5 keywords to compare their publication statistics"
      backendQueries := 0 }
  else
    let keywords := collectKeywords [k1, k2, k3, k4, k5]
    if keywords.length < 2 then
      { info := "Please enter at least 2 keywords to compare"
        backendQueries := 0 }
    else getKeywordComparison mysqlConnected keywords

/-! ### Connection adapters (mysql_utils.py, neo4j_utils.py) -/

/-- Trace of a single adapter read call: the returned value, how many times
connect() was attempted, and how many times the native query was run. -/
structure QueryTrace (α : Type) where
  result : Option α
  connectAttempts : Nat
  queryExecutions : Nat
deriving DecidableEq

/-- MySQLConnection.execute_query (mysql_utils.py lines 67-91).  When the
handle is stale (self.connection is None or not is_connected) it calls
connect() once and returns None if that fails; otherwise it runs the query
once, returning None if cursor.execute raised (caught and logged).  The
environment is abstracted by connectOk (would connect() succeed) and
queryOutcome (what the single execution would deliver, none for an error). -/
def mysqlExecuteQuery {α : Type} (stale connectOk : Bool)
    (queryOutcome : Option α) : QueryTrace α :=
  if stale then
    if connectOk then
      { result := queryOutcome, connectAttempts := 1, queryExecutions := 1 }
    else
      { result := none, connectAttempts := 1, queryExecutions := 0 }
  else
    { result := queryOutcome, connectAttempts := 0, queryExecutions := 1 }

/-- Neo4jConnection.execute_query (neo4j_utils.py lines 69-92): identical
single-attempt structure, where stale means self.driver is None. -/
def neo4jExecuteQuery {α : Type} (stale connectOk : Bool)
    (queryOutcome : Option α) : QueryTrace α :=
  if stale then
    if connectOk then
      { result := queryOutcome, connectAttempts := 1, queryExecutions := 1 }
    else
      { result := none, connectAttempts := 1, queryExecutions := 0 }
  else
    { result := queryOutcome, connectAttempts := 0, queryExecutions := 1 }

/-! ### Federated person search (app.py, get_person_information lines 977-1170) -/

/-- Backend-labelled section of the person report, one per result block
appended to all_results.  The row type is abstract: the report only ever
renders rows, it never inspects them. -/
inductive PersonSection (R : Type) where
  | mysqlFacultyInfo (rows : List R)
  | mysqlPublications (rows : List R)
  | mongoFacultyInfo (rows : List R)
  | mongoPublications (rows : List R)
  | neo4jPersonInfo (rows : List R)
  | neo4jPublications (rows : List R)
  | neo4jCollaborators (rows : List R)
deriving DecidableEq

/-- Result of get_person_information: the distinguished not-found block
(lines 1159-1164) or the assembled report (lines 1167-1170). -/
inductive PersonReport (R : Type) where
  | notFound (name : String)
  | found (name : String) (sections : List (PersonSection R))
deriving DecidableEq

/-- Python truthiness on an adapter result: a section is appended only when
the result is neither None (query error) nor the empty list. -/
def optSection {R : Type} (o : Option (List R))
    (mk : List R → PersonSection R) : List (PersonSection R) :=
  match o with
  | none => []
  | some rows => if rows.isEmpty then [] else [mk rows]

/-- get_person_information (app.py lines 977-1170).  Each backend block runs
only when its handle is present and connected; a query that raised inside
the adapter is a none input here (the adapters catch and log, returning
None), and contributes nothing.  The blocks never abort the search. -/
def getPersonInformation {R : Type} (name : String)
    (mysqlConnected : Bool) (mysqlFaculty mysqlPubs : Option (List R))
    (mongoConnected : Bool) (mongoFaculty mongoPubs : Option (List R))
    (neoConnected : Bool) (neoPersons neoPubs neoCollabs : Option (List R)) :
    PersonReport R :=
  let s1 :=
    if mysqlConnected then
      optSection mysqlFaculty .mysqlFacultyInfo
        ++ optSection mysqlPubs .mysqlPublications
    else []
  let s2 :=
    if mongoConnected then
      optSection mongoFaculty .mongoFacultyInfo
        ++ optSection mongoPubs .mongoPublications
    else []
  let s3 :=
    if neoConnected then
      optSection neoPersons .neo4jPersonInfo
        ++ optSection neoPubs .neo4jPublications
        ++ optSection neoCollabs .neo4jCollaborators
    else []
  let allResults := s1 ++ s2 ++ s3
  if allResults.isEmpty then .notFound name else .found name allResults

/-- Whether the search produced the assembled report rather than the
distinguished not-found block. -/
def reportIsFound {R : Type} : PersonReport R → Bool
  | .notFound _ => false
  | .found _ _ => true

/-- Sections of the assembled report (empty for the not-found block). -/
def reportSections {R : Type} : PersonReport R → List (PersonSection R)
  | .notFound _ => []
  | .found _ ss => ss

/-- Rows a section contributes under the relational (MySQL) label. -/
def sectionRelRows {R : Type} : PersonSection R → List R
  | .mysqlFacultyInfo rows => rows
  | .mysqlPublications rows => rows
  | _ => []

/-- All rows of a report's sections carrying the relational label. -/
def relationalRows {R : Type} (ss : List (PersonSection R)) : List R :=
  (ss.map sectionRelRows).flatten

/-- Whether a section carries the document-backend (MongoDB) label. -/
def isDocumentSection {R : Type} : PersonSection R → Bool
  | .mongoFacultyInfo _ => true
  | .mongoPublications _ => true
  | _ => false

/-- Python falsiness of an adapter result: None (error) or no records. -/
def falsyResult {R : Type} (o : Option (List R)) : Prop :=
  o = none ∨ o = some []

/-! ### Publications over time (app.py, get_timeseries_widget_data lines 1172-1324) -/

/-- One entry of publication_data: a date, a count, and the originating
backend tag put into the 'source' field. -/
structure TSRow where
  date : String
  count : Int
  source : String
deriving DecidableEq

/-- Methods defined in the class body of MongoDBConnection
(mongodb_utils.py lines 16-419). -/
def mongoDBConnectionMethods : List String :=
  ["__init__", "connect", "disconnect", "get_database", "get_collection",
   "insert_document", "insert_many_documents", "find_documents",
   "find_one_document", "update_document", "update_many_documents",
   "delete_document", "delete_many_documents", "get_collections",
   "get_databases", "collection_exists", "get_document_count"]

/-- Python attribute access mongodb_conn.method(...): an AttributeError is
raised when the class defines no such method; docs supplies the value the
call would deliver if the method existed. -/
def mongoMethodCall (method : String) (docs : List (String × Int)) :
    Except String (List (String × Int)) :=
  if method ∈ mongoDBConnectionMethods then .ok docs
  else .error "AttributeError"

/-- One day of the fallback series (app.py lines 1252-1263): base count 5 on
weekdays and 2 on weekends, plus random.randint(-2, 3), clamped at 0; the
weekday test and the random draw are environment inputs. -/
def sampleRow (isWeekday : Bool) (draw : Int) (date : String) : TSRow :=
  { date := date
    count := max 0 ((if isWeekday then 5 else 2) + draw)
    source := "Sample Data" }

/-- Real (non-synthetic) publication_data accumulated by
get_timeseries_widget_data (app.py lines 1176-1240): MySQL is tried first;
MongoDB only when MySQL contributed nothing, via the execute_aggregation
attribute; Neo4j only when the list is still empty.  none models a query
that raised or returned a falsy result. -/
def timeseriesRealData
    (mysqlConnected : Bool) (mysqlRows : Option (List (String × Int)))
    (mongoConnected : Bool) (mongoDocs : List (String × Int))
    (neoConnected : Bool) (neoRows : Option (List (String × Int))) :
    List TSRow :=
  let mysqlData : List TSRow :=
    if mysqlConnected then
      match mysqlRows with
      | some rows => rows.map (fun rc => ⟨rc.1, rc.2, "MySQL"⟩)
      | none => []
    else []
  let mongoData : List TSRow :=
    if mongoConnected ∧ mysqlData.isEmpty then
      match mongoMethodCall "execute_aggregation" mongoDocs with
      | .ok docs => docs.map (fun rc => ⟨rc.1, rc.2, "MongoDB"⟩)
      | .error _ => []
    else []
  let neoData : List TSRow :=
    if neoConnected ∧ (mysqlData ++ mongoData).isEmpty then
      match neoRows with
      | some rows => rows.map (fun rc => ⟨rc.1, rc.2, "Neo4j"⟩)
      | none => []
    else []
  mysqlData ++ mongoData ++ neoData

/-- publication_data of get_timeseries_widget_data (app.py lines 1176-1263):
the real data when any backend contributed, otherwise the generated sample
series over the last year's dates. -/
def timeseriesPublicationData
    (mysqlConnected : Bool) (mysqlRows : Option (List (String × Int)))
    (mongoConnected : Bool) (mongoDocs : List (String × Int))
    (neoConnected : Bool) (neoRows : Option (List (String × Int)))
    (dates : List String) (isWeekday : String → Bool) (draw : String → Int) :
    List TSRow :=
  let realData := timeseriesRealData mysqlConnected mysqlRows
    mongoConnected mongoDocs neoConnected neoRows
  if realData.isEmpty then
    dates.map (fun d => sampleRow (isWeekday d) (draw d) d)
  else realData

/-! ### Helper lemmas -/

theorem mem_foldl_distinct {K : Type} [DecidableEq K] (l : List K) :
    ∀ (acc : List K) (x : K),
      x ∈ l.foldl (fun acc x => if x ∈ acc then acc else acc ++ [x]) acc →
        x ∈ acc ∨ x ∈ l := by
  induction l with
  | nil => intro acc x h; exact Or.inl h
  | cons y ys ih =>
    intro acc x h
    rw [List.foldl_cons] at h
    rcases ih _ x h with h1 | h1
    · by_cases hy : y ∈ acc
      · rw [if_pos hy] at h1
        exact Or.inl h1
      · rw [if_neg hy] at h1
        rcases List.mem_append.1 h1 with h2 | h2
        · exact Or.inl h2
        · simp only [List.mem_singleton] at h2
          subst h2
          exact Or.inr (List.mem_cons_self _ _)
    · exact Or.inr (List.mem_cons_of_mem _ h1)

theorem mem_of_mem_distinctFirst {K : Type} [DecidableEq K] {l : List K} {x : K}
    (h : x ∈ distinctFirst l) : x ∈ l := by
  rcases mem_foldl_distinct l [] x h with h1 | h1
  · cases h1
  · exact h1

theorem filter_orderedInsert_countGE {K : Type} (x : K × Nat)
    (s : List (K × Nat)) (c : Nat) :
    (List.orderedInsert countGE x s).filter (fun p => p.2 == c)
      = if x.2 = c then x :: s.filter (fun p => p.2 == c)
        else s.filter (fun p => p.2 == c) := by
  induction s with
  | nil =>
    by_cases h : x.2 = c <;>
      simp [List.orderedInsert, List.filter_cons, h]
  | cons y ys ih =>
    simp only [List.orderedInsert]
    by_cases hr : countGE x y
    · rw [if_pos hr]
      by_cases h : x.2 = c <;> simp [List.filter_cons, h]
    · rw [if_neg hr]
      by_cases h : x.2 = c
      · have hy : ¬(y.2 = c) := by
          intro hc
          exact hr (by simp [countGE, hc, h])
        simp [List.filter_cons, hy, ih, h]
      · simp [List.filter_cons, ih, h]

theorem filter_insertionSort_countGE {K : Type} (l : List (K × Nat)) (c : Nat) :
    (List.insertionSort countGE l).filter (fun p => p.2 == c)
      = l.filter (fun p => p.2 == c) := by
  induction l with
  | nil => rfl
  | cons x xs ih =>
    simp only [List.insertionSort]
    rw [filter_orderedInsert_countGE]
    by_cases h : x.2 = c <;> simp [List.filter_cons, h, ih]

/-! ### Claims C3 and C4: group-count and top-N -/

/-- Claim C3: for every RecordSet R with a consistent field schema and every
field f, the group-count aggregation over R by f produces partitions whose
counts sum to the length of R, whose keys are exactly the distinct values of
f occurring in R, and which are sorted by partition key ascending. -/
theorem C3_group_count_partitions {ρ K : Type} [LinearOrder K]
    (R : List ρ) (f : ρ → K) :
    ((groupCountBy R f).map Prod.snd).sum = R.length
      ∧ (∀ k, k ∈ (groupCountBy R f).map Prod.fst ↔ ∃ r ∈ R, f r = k)
      ∧ List.Sorted (· ≤ ·) ((groupCountBy R f).map Prod.fst) := by
  have hmapfst : (groupCountBy R f).map Prod.fst
      = List.insertionSort (· ≤ ·) (R.map f).dedup := by
    simp [groupCountBy, groupCount, List.map_map, Function.comp_def]
  have hperm : (List.insertionSort (· ≤ ·) (R.map f).dedup).Perm (R.map f).dedup :=
    List.perm_insertionSort _ _
  refine ⟨?_, ?_, ?_⟩
  · have hmapsnd : (groupCountBy R f).map Prod.snd
        = (List.insertionSort (· ≤ ·) (R.map f).dedup).map
            (fun k => (R.map f).count k) := by
      simp [groupCountBy, groupCount, List.map_map, Function.comp_def]
    rw [hmapsnd, (hperm.map _).sum_eq, List.sum_map_count_dedup_eq_length,
      List.length_map]
  · intro k
    rw [hmapfst, hperm.mem_iff, List.mem_dedup, List.mem_map]
  · rw [hmapfst]
    exact List.sorted_insertionSort _ _

/-- Claim C4 counterexample: at the venue site, a RecordSet whose venue
field is encountered as 'NeurIPS' then 'ICML', one record each, ranks the
tie class as ('ICML', 1), ('NeurIPS', 1) -- groupby's alphabetical partition
order -- while first-encountered order is ('NeurIPS', 1), ('ICML', 1); the
ties are therefore not broken by first-encountered order at that cited
site. -/
theorem C4_top_n_counterexample :
    venueTopN ["NeurIPS", "ICML"] 10 = [("ICML", 1), ("NeurIPS", 1)]
      ∧ countsFirst ["NeurIPS", "ICML"] = [("NeurIPS", 1), ("ICML", 1)]
      ∧ venueTopN ["NeurIPS", "ICML"] 10 ≠ countsFirst ["NeurIPS", "ICML"] := by
  have hle : ¬(("NeurIPS" : String) ≤ "ICML") := by
    rw [String.le_iff_toList_le]
    decide
  have hd : (["NeurIPS", "ICML"] : List String).dedup = ["NeurIPS", "ICML"] := by
    decide
  have hA : venueTopN ["NeurIPS", "ICML"] 10 = [("ICML", 1), ("NeurIPS", 1)] := by
    simp only [venueTopN, groupCount]
    rw [hd]
    simp only [List.insertionSort, List.orderedInsert]
    rw [if_neg hle]
    decide
  have hB : countsFirst ["NeurIPS", "ICML"] = [("NeurIPS", 1), ("ICML", 1)] := by
    decide
  refine ⟨hA, hB, ?_⟩
  rw [hA, hB]
  decide

/-- Claim C4 (amended): for every RecordSet R, field f and bound n, the
top-N aggregation returns at most n partitions, sorted by count descending,
and every returned partition is a partition of group-count over the same
field.  At the dict-based keyword site the stable sort additionally keeps
tie classes in first-encountered (dict insertion) order -- the result is the
n-prefix of the stable count-descending ranking of the first-encountered
partition list; at the venue site the ranking instead starts from
group-count's key-sorted partition order, so ties are not broken by
first-encountered order there. -/
theorem C4_top_n_amended {ρ K : Type} [LinearOrder K]
    (R : List ρ) (f : ρ → K) (n : Nat) :
    ((topNBy R f n).length ≤ n
      ∧ List.Sorted countGE (topNBy R f n)
      ∧ (∀ p ∈ topNBy R f n, p ∈ groupCountBy R f)
      ∧ topNBy R f n = (rankedCounts (R.map f)).take n
      ∧ (∀ c, (rankedCounts (R.map f)).filter (fun p => p.2 == c)
            = (countsFirst (R.map f)).filter (fun p => p.2 == c)))
      ∧ ((venueTopN (R.map f) n).length ≤ n
        ∧ List.Sorted countGE (venueTopN (R.map f) n)
        ∧ (∀ p ∈ venueTopN (R.map f) n, p ∈ groupCountBy R f)
        ∧ venueTopN (R.map f) n
            = (List.insertionSort countGE (groupCountBy R f)).take n) := by
  constructor
  · refine ⟨?_, ?_, ?_, rfl, fun c => filter_insertionSort_countGE _ c⟩
    · simp only [topNBy, topN, List.length_take]
      exact min_le_left _ _
    · have hs : List.Sorted countGE (rankedCounts (R.map f)) :=
        List.sorted_insertionSort countGE _
      exact hs.sublist (List.take_sublist _ _)
    · intro p hp
      have hp1 : p ∈ rankedCounts (R.map f) :=
        List.take_subset _ _ hp
      have hp2 : p ∈ countsFirst (R.map f) :=
        ((List.perm_insertionSort _ _).mem_iff).1 hp1
      rcases List.mem_map.1 hp2 with ⟨k, hk, rfl⟩
      have hkl : k ∈ (R.map f).dedup :=
        List.mem_dedup.2 (mem_of_mem_distinctFirst hk)
      have hks : k ∈ List.insertionSort (· ≤ ·) (R.map f).dedup :=
        ((List.perm_insertionSort _ _).mem_iff).2 hkl
      exact List.mem_map.2 ⟨k, hks, rfl⟩
  · refine ⟨?_, ?_, ?_, rfl⟩
    · simp only [venueTopN, List.length_take]
      exact min_le_left _ _
    · have hs : List.Sorted countGE
          (List.insertionSort countGE (groupCount (R.map f))) :=
        List.sorted_insertionSort countGE _
      exact hs.sublist (List.take_sublist _ _)
    · intro p hp
      have hp1 : p ∈ List.insertionSort countGE (groupCount (R.map f)) :=
        List.take_subset _ _ hp
      exact ((List.perm_insertionSort _ _).mem_iff).1 hp1

/-! ### Claim C5: keyword explosion on the concrete variant inputs -/

/-- Claim C5 counterexample: on the records 'AI, Machine Learning' and
'ai,NLP' the code's frequency mapping contains no entry for 'ai' at all
(the token has only 2 characters and the filter keeps tokens strictly
longer than 2), so 'ai' does not have count 2 as the claim states. -/
theorem C5_keyword_explosion_counterexample :
    (keywordCounts [("AI, Machine Learning", 1), ("ai,NLP", 1)]).lookup "ai" = none
      ∧ (keywordCounts [("AI, Machine Learning", 1), ("ai,NLP", 1)]).lookup "ai"
          ≠ some 2 := by
  refine ⟨by decide, by decide⟩

/-- Claim C5 (amended): keyword explosion over the records 'AI, Machine
Learning' and 'ai,NLP' splits, trims and lowercases the tokens, filters out
tokens shorter than 3 characters -- which drops both occurrences of 'ai' --
and yields the frequency mapping with exactly 'machine learning' and 'nlp'
at count 1 each. -/
theorem C5_keyword_explosion_amended :
    keywordCounts [("AI, Machine Learning", 1), ("ai,NLP", 1)]
      = [("machine learning", 1), ("nlp", 1)] := by
  decide

/-! ### Claim C6: adapter reconnect behaviour -/

/-- Claim C6 counterexample: with a fresh handle and a failing query, both
adapters return None after a single query execution and zero reconnect
attempts -- there is no reconnect-and-retry of the query after a query
failure. -/
theorem C6_reconnect_counterexample :
    mysqlExecuteQuery (α := List Nat) false true none
        = { result := none, connectAttempts := 0, queryExecutions := 1 }
      ∧ neo4jExecuteQuery (α := List Nat) false true none
        = { result := none, connectAttempts := 0, queryExecutions := 1 }
      ∧ ¬((mysqlExecuteQuery (α := List Nat) false true none).connectAttempts = 1
            ∧ (mysqlExecuteQuery (α := List Nat) false true none).queryExecutions = 2) := by
  refine ⟨rfl, rfl, by decide⟩

/-- Claim C6 (amended): on a stale handle each adapter attempts exactly one
lazy reconnect before failing (and runs the query only if that reconnect
succeeds); after a query failure the adapter returns None immediately, with
no reconnect and no retry -- the query is executed at most once per call --
and the caller degrades that backend to an empty contribution. -/
theorem C6_reconnect_amended {α : Type} (stale connectOk : Bool)
    (queryOutcome : Option α) :
    ((mysqlExecuteQuery stale connectOk queryOutcome).connectAttempts
        = if stale then 1 else 0)
      ∧ (mysqlExecuteQuery stale connectOk queryOutcome).queryExecutions ≤ 1
      ∧ ((mysqlExecuteQuery stale connectOk queryOutcome).result
          = if stale && !connectOk then none else queryOutcome)
      ∧ ((neo4jExecuteQuery stale connectOk queryOutcome).connectAttempts
          = if stale then 1 else 0)
      ∧ (neo4jExecuteQuery stale connectOk queryOutcome).queryExecutions ≤ 1
      ∧ ((neo4jExecuteQuery stale connectOk queryOutcome).result
          = if stale && !connectOk then none else queryOutcome) := by
  cases stale <;> cases connectOk <;>
    simp [mysqlExecuteQuery, neo4jExecuteQuery]

/-! ### Claim C7: comparison request validation -/

/-- Claim C7: whenever the comparison callback is triggered and the list of
non-empty trimmed terms has fewer than 2 elements, it returns the
user-facing validation message and issues no backend query. -/
theorem C7_comparison_validation (mysqlConnected : Bool) (nClicks : Nat)
    (k1 k2 k3 k4 k5 : Option String)
    (hn : nClicks ≠ 0)
    (hlen : (collectKeywords [k1, k2, k3, k4, k5]).length < 2) :
    compareKeywords mysqlConnected nClicks k1 k2 k3 k4 k5
      = { info := "Please enter at least 2 keywords to compare"
          backendQueries := 0 } := by
  simp only [compareKeywords, if_neg hn, if_pos hlen]

/-- Claim C7 witness: one non-blank keyword out of five triggers the
validation message with zero backend queries. -/
theorem C7_comparison_validation_witness :
    (1 : Nat) ≠ 0
      ∧ (collectKeywords [some "AI", none, none, none, none]).length < 2
      ∧ compareKeywords true 1 (some "AI") none none none none
        = { info := "Please enter at least 2 keywords to compare"
            backendQueries := 0 } :=
  ⟨by decide, by decide,
    C7_comparison_validation true 1 (some "AI") none none none none
      (by decide) (by decide)⟩

/-! ### Claim C8: scalar statistics on an empty RecordSet -/

/-- Claim C8 counterexample: on an empty RecordSet the mean of the citations
column is pandas NaN (modelled none), not 0, because the frame is built with
an explicit column list and the 'citations in columns' guard is therefore
always true. -/
theorem C8_scalar_stats_counterexample :
    (allPubsStats []).avgCitations = none
      ∧ (allPubsStats []).avgCitations ≠ some 0 := by
  refine ⟨rfl, by decide⟩

/-- Claim C8 (amended): the scalar-statistics computation applied to an
empty RecordSet returns mean = NaN (an undefined value, modelled none,
rather than 0), max = NaN (none), and mode = 'N/A', and raises no fault --
in particular no division by zero, the empty mean and max being defined
values. -/
theorem C8_scalar_stats_amended :
    allPubsStats [] = { totalPubs := 0, avgCitations := none, maxCitations := none }
      ∧ keywordStatsTopVenue [] = "N/A"
      ∧ seriesMean [] = none
      ∧ seriesMax [] = none :=
  ⟨rfl, rfl, rfl, rfl⟩

/-! ### Claims C1 and C2: federated person search -/

theorem relationalRows_append {R : Type} (a b : List (PersonSection R)) :
    relationalRows (a ++ b) = relationalRows a ++ relationalRows b := by
  simp [relationalRows]

theorem relationalRows_optSection_fac {R : Type} (o : Option (List R)) :
    relationalRows (optSection o PersonSection.mysqlFacultyInfo) = o.getD [] := by
  cases o with
  | none => rfl
  | some rows =>
    cases rows with
    | nil => rfl
    | cons r rs => simp [relationalRows, optSection, sectionRelRows]

theorem relationalRows_optSection_pub {R : Type} (o : Option (List R)) :
    relationalRows (optSection o PersonSection.mysqlPublications) = o.getD [] := by
  cases o with
  | none => rfl
  | some rows =>
    cases rows with
    | nil => rfl
    | cons r rs => simp [relationalRows, optSection, sectionRelRows]

theorem relationalRows_optSection_other {R : Type} (o : Option (List R))
    (mk : List R → PersonSection R)
    (hmk : ∀ rows, sectionRelRows (mk rows) = []) :
    relationalRows (optSection o mk) = [] := by
  cases o with
  | none => rfl
  | some rows =>
    cases rows with
    | nil => rfl
    | cons r rs => simp [relationalRows, optSection, hmk]

theorem not_document_optSection {R : Type} (o : Option (List R))
    (mk : List R → PersonSection R)
    (hmk : ∀ rows, isDocumentSection (mk rows) = false) :
    ∀ s ∈ optSection o mk, isDocumentSection s = false := by
  intro s hs
  cases o with
  | none => cases hs
  | some rows =>
    simp only [optSection] at hs
    split at hs
    · cases hs
    · simp only [List.mem_singleton] at hs
      subst hs
      exact hmk rows

theorem optSection_eq_nil_of_falsy {R : Type} {o : Option (List R)}
    (h : falsyResult o) (mk : List R → PersonSection R) :
    optSection o mk = [] := by
  rcases h with rfl | rfl <;> rfl

/-- Claim C1: for every person-search request where the document backend is
unreachable (skipped as not connected) and the relational backend queries
return 3 faculty/publication records in total, the search returns the
assembled report (no fault, not the not-found block) whose relational-label
rows are exactly those 3 records, and which contains no document-backend
section -- whatever the graph backend contributes. -/
theorem C1_document_backend_down {R : Type} (name : String) (fr pr : List R)
    (mongoFaculty mongoPubs : Option (List R)) (neoConnected : Bool)
    (neoPersons neoPubs neoCollabs : Option (List R))
    (h3 : fr.length + pr.length = 3) :
    reportIsFound (getPersonInformation name true (some fr) (some pr) false
        mongoFaculty mongoPubs neoConnected neoPersons neoPubs neoCollabs) = true
      ∧ relationalRows (reportSections (getPersonInformation name true (some fr)
          (some pr) false mongoFaculty mongoPubs neoConnected neoPersons neoPubs
          neoCollabs)) = fr ++ pr
      ∧ (relationalRows (reportSections (getPersonInformation name true (some fr)
          (some pr) false mongoFaculty mongoPubs neoConnected neoPersons neoPubs
          neoCollabs))).length = 3
      ∧ ∀ s ∈ reportSections (getPersonInformation name true (some fr) (some pr)
          false mongoFaculty mongoPubs neoConnected neoPersons neoPubs neoCollabs),
          isDocumentSection s = false := by
  have hne : (optSection (some fr) PersonSection.mysqlFacultyInfo
      ++ optSection (some pr) PersonSection.mysqlPublications : List (PersonSection R))
      ≠ [] := by
    cases fr with
    | nil =>
      cases pr with
      | nil => simp at h3
      | cons p ps => simp [optSection]
    | cons a as => simp [optSection]
  have hcond : ¬((((optSection (some fr) PersonSection.mysqlFacultyInfo
      ++ optSection (some pr) PersonSection.mysqlPublications) ++ [])
      ++ (if neoConnected then
            optSection neoPersons PersonSection.neo4jPersonInfo
              ++ optSection neoPubs PersonSection.neo4jPublications
              ++ optSection neoCollabs PersonSection.neo4jCollaborators
          else [])).isEmpty = true) := by
    intro h
    rw [List.isEmpty_eq_true] at h
    exact hne (List.append_eq_nil.1 (List.append_eq_nil.1 h).1).1
  have hrep : getPersonInformation name true (some fr) (some pr) false
      mongoFaculty mongoPubs neoConnected neoPersons neoPubs neoCollabs
      = PersonReport.found name
          (((optSection (some fr) PersonSection.mysqlFacultyInfo
              ++ optSection (some pr) PersonSection.mysqlPublications) ++ [])
            ++ (if neoConnected then
                  optSection neoPersons PersonSection.neo4jPersonInfo
                    ++ optSection neoPubs PersonSection.neo4jPublications
                    ++ optSection neoCollabs PersonSection.neo4jCollaborators
                else [])) := by
    simp only [getPersonInformation, eq_self_iff_true, if_true,
      Bool.false_eq_true, if_false]
    rw [if_neg hcond]
  have hs3rel : relationalRows (if neoConnected then
      optSection neoPersons PersonSection.neo4jPersonInfo
        ++ optSection neoPubs PersonSection.neo4jPublications
        ++ optSection neoCollabs PersonSection.neo4jCollaborators
    else []) = [] := by
    cases neoConnected with
    | false => rfl
    | true =>
      rw [if_pos rfl, relationalRows_append, relationalRows_append,
        relationalRows_optSection_other neoPersons PersonSection.neo4jPersonInfo
          (fun rows => rfl),
        relationalRows_optSection_other neoPubs PersonSection.neo4jPublications
          (fun rows => rfl),
        relationalRows_optSection_other neoCollabs PersonSection.neo4jCollaborators
          (fun rows => rfl)]
      rfl
  have hrel : relationalRows (reportSections (getPersonInformation name true
      (some fr) (some pr) false mongoFaculty mongoPubs neoConnected neoPersons
      neoPubs neoCollabs)) = fr ++ pr := by
    rw [hrep]
    simp only [reportSections]
    rw [relationalRows_append, relationalRows_append, relationalRows_append,
      relationalRows_optSection_fac, relationalRows_optSection_pub, hs3rel]
    simp [relationalRows]
  refine ⟨by rw [hrep]; rfl, hrel, by rw [hrel, List.length_append]; exact h3, ?_⟩
  intro s hs
  rw [hrep] at hs
  simp only [reportSections, List.mem_append, List.not_mem_nil, or_false,
    false_or] at hs
  rcases hs with (hs | hs) | hs
  · exact not_document_optSection (some fr) PersonSection.mysqlFacultyInfo
      (fun rows => rfl) s hs
  · exact not_document_optSection (some pr) PersonSection.mysqlPublications
      (fun rows => rfl) s hs
  · cases neoConnected with
    | false => simp at hs
    | true =>
      rw [if_pos rfl] at hs
      simp only [List.mem_append] at hs
      rcases hs with (hs | hs) | hs
      · exact not_document_optSection neoPersons PersonSection.neo4jPersonInfo
          (fun rows => rfl) s hs
      · exact not_document_optSection neoPubs PersonSection.neo4jPublications
          (fun rows => rfl) s hs
      · exact not_document_optSection neoCollabs PersonSection.neo4jCollaborators
          (fun rows => rfl) s hs

/-- Claim C1 witness: document backend down, relational backend returning 2
faculty rows and 1 publication row, graph backend down. -/
theorem C1_document_backend_down_witness :
    ([1, 2] : List Nat).length + ([3] : List Nat).length = 3
      ∧ reportIsFound (getPersonInformation "Alice" true (some [1, 2]) (some [3])
          false none none false none none none) = true
      ∧ relationalRows (reportSections (getPersonInformation "Alice" true
          (some [1, 2]) (some [3]) false none none false none none none))
          = [1, 2] ++ [3]
      ∧ (relationalRows (reportSections (getPersonInformation "Alice" true
          (some [1, 2]) (some [3]) false none none false none none none))).length = 3
      ∧ ∀ s ∈ reportSections (getPersonInformation "Alice" true (some [1, 2])
          (some [3]) false none none false none none none),
          isDocumentSection s = false :=
  ⟨by decide,
    C1_document_backend_down "Alice" [1, 2] [3] none none false none none none
      (by decide)⟩

/-- Claim C2: whenever each backend is either skipped as unconnected or its
queries yield zero records (an error result or an empty one), the person
search returns the distinguished not-found report -- not an error value, and
without raising. -/
theorem C2_all_backends_empty {R : Type} (name : String)
    (mysqlConnected mongoConnected neoConnected : Bool)
    (mysqlFaculty mysqlPubs mongoFaculty mongoPubs
      neoPersons neoPubs neoCollabs : Option (List R))
    (h1 : mysqlConnected = false ∨ (falsyResult mysqlFaculty ∧ falsyResult mysqlPubs))
    (h2 : mongoConnected = false ∨ (falsyResult mongoFaculty ∧ falsyResult mongoPubs))
    (h3 : neoConnected = false
      ∨ (falsyResult neoPersons ∧ falsyResult neoPubs ∧ falsyResult neoCollabs)) :
    getPersonInformation name mysqlConnected mysqlFaculty mysqlPubs mongoConnected
        mongoFaculty mongoPubs neoConnected neoPersons neoPubs neoCollabs
      = PersonReport.notFound name := by
  have e1 : (if mysqlConnected then
      optSection mysqlFaculty PersonSection.mysqlFacultyInfo
        ++ optSection mysqlPubs PersonSection.mysqlPublications
    else []) = [] := by
    rcases h1 with rfl | ⟨ha, hb⟩
    · rfl
    · rw [optSection_eq_nil_of_falsy ha, optSection_eq_nil_of_falsy hb]
      simp
  have e2 : (if mongoConnected then
      optSection mongoFaculty PersonSection.mongoFacultyInfo
        ++ optSection mongoPubs PersonSection.mongoPublications
    else []) = [] := by
    rcases h2 with rfl | ⟨ha, hb⟩
    · rfl
    · rw [optSection_eq_nil_of_falsy ha, optSection_eq_nil_of_falsy hb]
      simp
  have e3 : (if neoConnected then
      optSection neoPersons PersonSection.neo4jPersonInfo
        ++ optSection neoPubs PersonSection.neo4jPublications
        ++ optSection neoCollabs PersonSection.neo4jCollaborators
    else []) = [] := by
    rcases h3 with rfl | ⟨ha, hb, hc⟩
    · rfl
    · rw [optSection_eq_nil_of_falsy ha, optSection_eq_nil_of_falsy hb,
        optSection_eq_nil_of_falsy hc]
      simp
  simp only [getPersonInformation, e1, e2, e3]
  rfl

/-- Claim C2 witness: no backend connected yields the not-found report. -/
theorem C2_all_backends_empty_witness :
    ((false = false)
        ∨ (falsyResult (none : Option (List Nat)) ∧ falsyResult (none : Option (List Nat))))
      ∧ getPersonInformation (R := Nat) "Nobody" false none none false none none
          false none none none = PersonReport.notFound "Nobody" :=
  ⟨Or.inl rfl,
    C2_all_backends_empty "Nobody" false false false none none none none none
      none none (Or.inl rfl) (Or.inl rfl) (Or.inl rfl)⟩

/-! ### Claims C9 and C10: publications-over-time sources -/

theorem mongoMethodCall_missing (docs : List (String × Int)) :
    mongoMethodCall "execute_aggregation" docs = Except.error "AttributeError" := by
  simp only [mongoMethodCall]
  rw [if_neg (by decide)]

theorem mem_tagRows {rows : List (String × Int)} {tag : String} {r : TSRow}
    (h : r ∈ rows.map (fun rc => TSRow.mk rc.1 rc.2 tag)) : r.source = tag := by
  rcases List.mem_map.1 h with ⟨rc, _, rfl⟩
  rfl

theorem mem_ite_nil {c : Prop} [Decidable c] {l : List TSRow} {r : TSRow}
    (h : r ∈ if c then l else []) : r ∈ l := by
  split at h
  · exact h
  · cases h

theorem mem_optTagRows {o : Option (List (String × Int))} {tag : String} {r : TSRow}
    (h : r ∈ (match o with
      | some rows => rows.map (fun rc : String × Int => TSRow.mk rc.1 rc.2 tag)
      | none => ([] : List TSRow))) : r.source = tag := by
  cases o with
  | none => cases h
  | some rows => exact mem_tagRows h

theorem timeseriesRealData_source (mc : Bool) (mr : Option (List (String × Int)))
    (gc : Bool) (md : List (String × Int)) (nc : Bool)
    (nr : Option (List (String × Int))) (r : TSRow)
    (hr : r ∈ timeseriesRealData mc mr gc md nc nr) :
    r.source = "MySQL" ∨ r.source = "Neo4j" := by
  simp only [timeseriesRealData] at hr
  rcases List.mem_append.1 hr with h | h
  · rcases List.mem_append.1 h with h1 | h1
    · exact Or.inl (mem_optTagRows (mem_ite_nil h1))
    · have h2 := mem_ite_nil h1
      rw [mongoMethodCall_missing] at h2
      simp at h2
  · exact Or.inr (mem_optTagRows (mem_ite_nil h))

/-- Claim C9 counterexample: with no backend reachable, the substituted time
series carries the source tag 'Sample Data', not 'synthetic-fallback' as the
claim states. -/
theorem C9_synthetic_tag_counterexample :
    (timeseriesPublicationData false none false [] false none
        ["2025-01-01"] (fun _ => true) (fun _ => 0)).map TSRow.source
      = ["Sample Data"]
      ∧ "synthetic-fallback"
        ∉ (timeseriesPublicationData false none false [] false none
            ["2025-01-01"] (fun _ => true) (fun _ => 0)).map TSRow.source := by
  refine ⟨by decide, by decide⟩

/-- Claim C9 (amended): when no real dated records come from any backend,
the publications-over-time computation substitutes a synthetic series all of
whose records carry the source tag 'Sample Data', a tag no real backend
record ever carries (real records are tagged 'MySQL' or 'Neo4j'), so the
caller can distinguish real data from the substitution by that tag -- the
tag is 'Sample Data', not 'synthetic-fallback'. -/
theorem C9_synthetic_tag_amended (mc : Bool) (mr : Option (List (String × Int)))
    (gc : Bool) (md : List (String × Int)) (nc : Bool)
    (nr : Option (List (String × Int))) (dates : List String)
    (isWeekday : String → Bool) (draw : String → Int)
    (hreal : timeseriesRealData mc mr gc md nc nr = []) :
    (∀ r ∈ timeseriesPublicationData mc mr gc md nc nr dates isWeekday draw,
        r.source = "Sample Data")
      ∧ (∀ (mc2 : Bool) (mr2 : Option (List (String × Int))) (gc2 : Bool)
          (md2 : List (String × Int)) (nc2 : Bool)
          (nr2 : Option (List (String × Int))) (r : TSRow),
          r ∈ timeseriesRealData mc2 mr2 gc2 md2 nc2 nr2 →
            r.source ≠ "Sample Data") := by
  constructor
  · intro r hr
    simp only [timeseriesPublicationData, hreal, List.isEmpty_nil, if_true] at hr
    rcases List.mem_map.1 hr with ⟨d, _, rfl⟩
    rfl
  · intro mc2 mr2 gc2 md2 nc2 nr2 r hr
    rcases timeseriesRealData_source mc2 mr2 gc2 md2 nc2 nr2 r hr with h | h <;>
      · rw [h]; decide

/-- Claim C9 witness: all backends down, one fallback date. -/
theorem C9_synthetic_tag_amended_witness :
    timeseriesRealData false none false [] false none = []
      ∧ ∀ r ∈ timeseriesPublicationData false none false [] false none
          ["2025-01-01"] (fun _ => true) (fun _ => 0), r.source = "Sample Data" :=
  ⟨rfl,
    (C9_synthetic_tag_amended false none false [] false none ["2025-01-01"]
        (fun _ => true) (fun _ => 0) rfl).1⟩

/-- Claim C10: the MongoDBConnection class defines no execute_aggregation
method, so the document-backend branch of the publications-over-time
computation always raises an AttributeError (caught and logged as a warning)
and the document backend is never the source of any returned record. -/
theorem C10_document_branch_dead (mc : Bool) (mr : Option (List (String × Int)))
    (gc : Bool) (md : List (String × Int)) (nc : Bool)
    (nr : Option (List (String × Int))) (dates : List String)
    (isWeekday : String → Bool) (draw : String → Int) :
    "execute_aggregation" ∉ mongoDBConnectionMethods
      ∧ (∀ docs, mongoMethodCall "execute_aggregation" docs
          = Except.error "AttributeError")
      ∧ ∀ r ∈ timeseriesPublicationData mc mr gc md nc nr dates isWeekday draw,
          r.source ≠ "MongoDB" := by
  refine ⟨by decide, mongoMethodCall_missing, ?_⟩
  intro r hr
  simp only [timeseriesPublicationData] at hr
  split at hr
  · rcases List.mem_map.1 hr with ⟨d, _, rfl⟩
    simp [sampleRow]
  · rcases timeseriesRealData_source mc mr gc md nc nr r hr with h | h <;>
      · rw [h]; decide

end DataDashboard
